import Mathlib

/-!
Verification of the cxxrtl client core of `libsurfer`
(`src/libsurfer/src/cxxrtl_container.rs`), a client-side bridge to an
external hardware simulator.  The Rust source is shallowly embedded:

* `CachedData<T>` (the tri-state cache cell) becomes the inductive
  `CachedData T`; its `Arc<T>` internals are dropped since `Arc` only
  shares ownership and `clone` is value-preserving.
* Side effects are made explicit: a facade operation on the shared
  `CxxrtlData` state becomes a function returning the result, the updated
  state, and the list of commands queued through `run_command`; sends on
  `msg_channel` append to an explicit `msgs` field.  The `FnOnce` closure
  passed to `fetch_if_needed` is modelled by returning the number of times
  the closure would have been invoked (the Rust body calls it exactly once
  in the `Uncached` arm and never otherwise).
* Rust `HashMap`s keyed by scope/variable references are modelled as
  association lists (the claims under study are about membership and
  lookup, never about hashing or iteration order).
* `BigUint`/`CxxrtlTimestamp` (arbitrary-precision femtosecond counts)
  become `Nat`; the conversion `to_bigint` on a `BigUint` always succeeds.
* Response callbacks registered with `run_command` become named functions
  (`list_scopes_callback`, `pause_callback`, ...) applied when the matching
  response is dispatched by the worker.
-/

namespace Surfer

/-- Embeds `CachedData<T>`: a piece of data cached from cxxrtl.
`Uncached` — invalidated, previously held data kept if still useful;
`Waiting` — invalidated and a request has been made for new data;
`Filled` — the cache is up-to-date. -/
inductive CachedData (T : Type) where
  | Uncached (prev : Option T)
  | Waiting (prev : Option T)
  | Filled (val : T)
  deriving DecidableEq, Repr

namespace CachedData

variable {T : Type}

/-- Embeds `CachedData::empty`. -/
def empty : CachedData T := .Uncached none

/-- Embeds `CachedData::make_uncached`: demote any state to `Uncached`,
keeping the best previous value. -/
def make_uncached : CachedData T → CachedData T
  | .Uncached prev => .Uncached prev
  | .Waiting prev => .Uncached prev
  | .Filled prev => .Uncached (some prev)

/-- Embeds `CachedData::filled`. -/
def filled (t : T) : CachedData T := .Filled t

/-- Embeds `CachedData::get`: the current value or the previous one. -/
def get : CachedData T → Option T
  | .Uncached prev => prev
  | .Waiting prev => prev
  | .Filled val => some val

/-- Embeds `CachedData::fetch_if_needed`.  The Rust function takes an
`FnOnce()` closure `f`; the returned `Nat` is the number of times the body
invokes `f` (once in the `Uncached` arm, zero times otherwise).  Components:
(returned value, state after the call, closure invocation count). -/
def fetch_if_needed : CachedData T → Option T × CachedData T × Nat
  | .Uncached prev => (prev, .Waiting prev, 1)
  | .Waiting prev => (prev, .Waiting prev, 0)
  | .Filled val => (some val, .Filled val, 0)

end CachedData

/-- Rust `str::split(sep)` on a list of characters: splits at every
occurrence of `sep`, yielding at least one (possibly empty) token. -/
def splitOnChar (sep : Char) : List Char → List (List Char)
  | [] => [[]]
  | c :: cs =>
    let rest := splitOnChar sep cs
    if c = sep then [] :: rest
    else
      match rest with
      | [] => [[c]]
      | w :: ws => (c :: w) :: ws

/-- Embeds Rust `k.split(' ')` on a `String`. -/
def splitSpace (s : String) : List String :=
  (splitOnChar ' ' s.toList).map (fun cs => String.mk cs)

theorem splitOnChar_ne_nil (sep : Char) (l : List Char) : splitOnChar sep l ≠ [] := by
  cases l with
  | nil => simp [splitOnChar]
  | cons c cs =>
    simp only [splitOnChar]
    split
    · simp
    · split <;> simp

theorem splitSpace_ne_nil (s : String) : splitSpace s ≠ [] := by
  simpa [splitSpace] using splitOnChar_ne_nil ' ' s.toList

example : splitSpace "top cpu r0" = ["top", "cpu", "r0"] := by decide
example : splitSpace "" = [""] := by decide
example : splitSpace "top" = ["top"] := by decide

/-- Embeds `ScopeRef` from `wave_container`: an ordered sequence of name
segments (the `id` field is always `ScopeId::None` in this file and is
dropped). -/
abbrev ScopeRef := List String

/-- Embeds `VariableRef` from `wave_container`: a scope path plus a leaf
name (the `id` field is always `VarId::None` in this file and is dropped). -/
structure VariableRef where
  path : ScopeRef
  name : String
  deriving DecidableEq, Repr

/-- Embeds `CxxrtlItem`: metadata for one item (its bit width, a `u32`;
modelled as `Nat`, no claim involves overflow of the width). -/
structure CxxrtlItem where
  width : Nat
  deriving DecidableEq, Repr

/-- Embeds `SimulationStatusType`. -/
inductive SimulationStatusType where
  | running
  | paused
  | finished
  deriving DecidableEq, Repr

/-- Embeds `CxxrtlSimulationStatus`: the status plus the latest simulated
time (`CxxrtlTimestamp`, an arbitrary-precision femtosecond count, modelled
as `Nat`). -/
structure CxxrtlSimulationStatus where
  status : SimulationStatusType
  latest_time : Nat
  deriving DecidableEq, Repr

/-- Embeds `Message` from `message.rs` as far as this file uses it: the only
message this file ever sends is `Message::InvalidateDrawCommands` (the
redraw notification). -/
inductive Message where
  | InvalidateDrawCommands
  deriving DecidableEq, Repr

/-- Embeds `CxxrtlCommand` (the command vocabulary used by this file).
Timestamps are `Nat` femtoseconds. -/
inductive CxxrtlCommand where
  | list_scopes (scope : Option String)
  | list_items (scope : Option String)
  | reference_items (reference : String) (items : List (List String))
  | query_interval (intervalStart intervalEnd : Nat) (collapse : Bool)
      (items : Option String) (item_values_encoding : String) (diagnostics : Bool)
  | run_simulation (until_time : Option Nat) (until_diagnostics : List String)
      (sample_item_values : Bool)
  | pause_simulation
  | get_simulation_status
  deriving DecidableEq, Repr

/-- Embeds `CommandResponse` (the response vocabulary used by the callbacks
in this file).  `CxxrtlScope` is an empty struct, so a `list_scopes`
response carries just the scope names. -/
inductive CommandResponse where
  | list_scopes (scopes : List String)
  | list_items (items : List (String × CxxrtlItem))
  | reference_items
  | query_interval (samples : List (Nat × List String))
  | run_simulation
  | pause_simulation (time : Nat)
  | get_simulation_status (status : CxxrtlSimulationStatus)
  deriving DecidableEq, Repr

/-- The default reference name `ALL_VARIABLES`. -/
def DEFAULT_REFERENCE : String := "ALL_VARIABLES"

/-- Association-list lookup, modelling `HashMap::get` /
`HashMap::contains_key` for maps embedded as lists of pairs. -/
def alistLookup {α β : Type} [DecidableEq α] (m : List (α × β)) (k : α) : Option β :=
  match m with
  | [] => none
  | (k0, v0) :: rest => if k0 = k then some v0 else alistLookup rest k

/-- Embeds `QueryResult` from `wave_container` (that file is not part of
the sample).  Modelled from the spec: the interval store answers a point
query with the sample value active at the queried time, "or a
default/empty value"; we record the answering sample, `none` standing for
the default/empty result. -/
structure QueryResult where
  current : Option (Int × String)
  deriving DecidableEq, Repr

instance : Inhabited QueryResult := ⟨⟨none⟩⟩

/-- Embeds `QueryContainer` from `cxxrtl/query_container.rs` (not part of
the sample).  Modelled from the spec, section 4.4: it holds, per loaded
signal, an ordered sequence of (time, value) samples over the current
window. -/
structure QueryContainer where
  samples : List (VariableRef × List (Int × String))
  deriving DecidableEq, Repr

namespace QueryContainer

/-- Embeds `QueryContainer::empty`. -/
def empty : QueryContainer := ⟨[]⟩

/-- Modelled from the spec: `QueryContainer::query` returns the most recent
sample with timestamp ≤ the queried time, or a default/empty value if the
time precedes the first sample or the variable is not in the load set. -/
def query (qc : QueryContainer) (variable0 : VariableRef) (time : Int) : QueryResult :=
  match alistLookup qc.samples variable0 with
  | none => default
  | some sams => ⟨(sams.filter (fun s => decide (s.1 ≤ time))).getLast?⟩

end QueryContainer

/-- Embeds `CxxrtlData`, the shared cache state.  `msgs` accumulates the
messages sent on `msg_channel` (the channel endpoint itself carries no
state relevant to the claims). -/
structure CxxrtlData where
  scopes_cache : CachedData (List ScopeRef)
  module_item_cache : List (ScopeRef × CachedData (List (VariableRef × CxxrtlItem)))
  all_items_cache : CachedData (List (VariableRef × CxxrtlItem))
  query_result : CachedData Nat
  interval_query_cache : QueryContainer
  loaded_signals : List VariableRef
  signal_index_map : List (VariableRef × Nat)
  simulation_status : CachedData CxxrtlSimulationStatus
  msgs : List Message
  deriving DecidableEq, Repr

namespace CxxrtlData

/-- The initial state built in `CxxrtlContainer::new`: every cache empty. -/
def initial : CxxrtlData where
  scopes_cache := CachedData.empty
  module_item_cache := []
  all_items_cache := CachedData.empty
  query_result := CachedData.empty
  interval_query_cache := QueryContainer.empty
  loaded_signals := []
  signal_index_map := []
  simulation_status := CachedData.empty
  msgs := []

/-- Embeds `CxxrtlData::invalidate_query_result`: demote the query-result
cell and send a redraw notification.  (The call to
`interval_query_cache.invalidate()` is commented out in the source.) -/
def invalidate_query_result (d : CxxrtlData) : CxxrtlData :=
  { d with
    query_result := d.query_result.make_uncached
    msgs := d.msgs ++ [Message.InvalidateDrawCommands] }

/-- Embeds `CxxrtlData::on_simulation_status_update`: fill the status cell,
send a redraw notification, and invalidate the query result. -/
def on_simulation_status_update (d : CxxrtlData) (status : CxxrtlSimulationStatus) :
    CxxrtlData :=
  invalidate_query_result
    { d with
      simulation_status := CachedData.filled status
      msgs := d.msgs ++ [Message.InvalidateDrawCommands] }

end CxxrtlData

/-- Embeds `CxxrtlContainer::item_list_to_hash_map`: split each item key on
the space separator; everything but the last token is the scope path, the
last token the leaf name.  An empty token list would be dropped with a log
entry (the `error!` arm of the source). -/
def item_list_to_hash_map (items : List (String × CxxrtlItem)) :
    List (VariableRef × CxxrtlItem) :=
  items.filterMap (fun kv =>
    let sp := splitSpace kv.1
    if h : sp = [] then none
    else some (⟨sp.dropLast, sp.getLast h⟩, kv.2))

/-- The decoded form of one wire item key: all tokens but the last as the
scope path, the last token as the leaf name. -/
def decode_item_key (k : String) : VariableRef :=
  ⟨(splitSpace k).dropLast, (splitSpace k).getLast (splitSpace_ne_nil k)⟩

/-- `item_list_to_hash_map` never drops an item: splitting always yields at
least one token, so the guard of the `error!` arm never fires. -/
theorem item_list_to_hash_map_eq_map (items : List (String × CxxrtlItem)) :
    item_list_to_hash_map items =
      items.map (fun kv => (decode_item_key kv.1, kv.2)) := by
  induction items with
  | nil => rfl
  | cons kv rest ih =>
    simp only [item_list_to_hash_map, List.filterMap_cons, List.map_cons] at *
    rw [dif_neg (splitSpace_ne_nil kv.1)]
    exact congrArg _ ih

/-- Modelled from the spec: `cxxrtl_repr` of a variable reference
(`VariableRefExt`, `wave_container.rs` is not part of the sample) — the
scope path and leaf name joined by the single separator character. -/
def VariableRef.cxxrtl_repr (v : VariableRef) : String :=
  String.intercalate " " (v.path ++ [v.name])

/-- Embeds `SimulationStatus` from `wave_container`. -/
inductive SimulationStatus where
  | Running
  | Paused
  | Finished
  deriving DecidableEq, Repr

/-- Modelled from the spec: `QueryContainer::populate`
(`cxxrtl/query_container.rs` is not part of the sample) — builds, per
loaded signal, an ordered (time, value) sample sequence over the interval
from the batch response (the compact value decoding itself is outside the
claims; each signal takes its column of the batch). -/
def QueryContainer.populate (loaded_signals : List VariableRef)
    (samples : List (Nat × List String)) : QueryContainer :=
  ⟨(loaded_signals.enum).map (fun si =>
    (si.2, samples.map (fun s => ((s.1 : Int), (s.2.getD si.1 "")))))⟩

namespace CxxrtlContainer

/-!
Facade operations of `CxxrtlContainer`.  Each synchronous operation takes
the shared `CxxrtlData` and returns its result, the updated state, and the
commands queued through `run_command` (the closure handed to
`fetch_if_needed` queues exactly one command, so a closure invocation count
of `1` queues that command and `0` queues nothing).  The response callbacks
handed to `run_command` are the `*_callback` functions below: the worker
later pops the oldest callback and applies it to the decoded response and
the shared state.  Every callback built with the `expect_response!` idiom
logs and returns without touching the state when the response variant does
not match.
-/

open CxxrtlData

/-- Callback registered by `get_scopes`: decode scope names by splitting on
the space separator and fill the scope cache. -/
def list_scopes_callback (response : CommandResponse) (d : CxxrtlData) : CxxrtlData :=
  match response with
  | .list_scopes scopes => { d with scopes_cache := CachedData.filled (scopes.map splitSpace) }
  | _ => d

/-- Callback registered by `fetch_all_items`: decode the item table and
fill the all-items cache. -/
def list_items_callback (response : CommandResponse) (d : CxxrtlData) : CxxrtlData :=
  match response with
  | .list_items items =>
      { d with all_items_cache := CachedData.filled (item_list_to_hash_map items) }
  | _ => d

/-- Callback registered by the status poll in `raw_simulation_status`. -/
def status_callback (response : CommandResponse) (d : CxxrtlData) : CxxrtlData :=
  match response with
  | .get_simulation_status status => d.on_simulation_status_update status
  | _ => d

/-- Callback registered by `pause`: on a pause response reporting the stop
time, record the paused status. -/
def pause_callback (response : CommandResponse) (d : CxxrtlData) : CxxrtlData :=
  match response with
  | .pause_simulation time =>
      d.on_simulation_status_update ⟨SimulationStatusType.paused, time⟩
  | _ => d

/-- Callback registered by `unpause`: ignores the response and optimistically
fills the status cell with `running` at time zero. -/
def unpause_callback (_response : CommandResponse) (d : CxxrtlData) : CxxrtlData :=
  { d with
    simulation_status :=
      CachedData.filled ⟨SimulationStatusType.running, 0⟩ }

/-- Callback registered by `load_variables`: ignores the response variant
and invalidates the query result. -/
def reference_items_callback (_response : CommandResponse) (d : CxxrtlData) : CxxrtlData :=
  d.invalidate_query_result

/-- Callback registered by the query issued in `query_variable`; it captures
the maximum timestamp, the loaded signals and the item table at issue time. -/
def query_interval_callback (max_timestamp : Nat) (loaded_signals : List VariableRef)
    (response : CommandResponse) (d : CxxrtlData) : CxxrtlData :=
  match response with
  | .query_interval samples =>
      { d with
        query_result := CachedData.filled max_timestamp
        interval_query_cache := QueryContainer.populate loaded_signals samples
        msgs := d.msgs ++ [Message.InvalidateDrawCommands] }
  | _ => d

/-- Embeds `CxxrtlContainer::get_scopes`: fetch-if-needed on the scope
cache, substituting the empty table when no value is available. -/
def get_scopes (d : CxxrtlData) : List ScopeRef × CxxrtlData × List CxxrtlCommand :=
  let r := d.scopes_cache.fetch_if_needed
  (r.1.getD [], { d with scopes_cache := r.2.1 },
    if r.2.2 = 0 then [] else [CxxrtlCommand.list_scopes none])

/-- Embeds `CxxrtlContainer::scopes`: `Some(self.get_scopes())`. -/
def scopes (d : CxxrtlData) : Option (List ScopeRef) × CxxrtlData × List CxxrtlCommand :=
  let r := get_scopes d
  (some r.1, r.2.1, r.2.2)

/-- Embeds `CxxrtlContainer::modules`: the scope keys, or `[]` if
`scopes` returns nothing. -/
def modules (d : CxxrtlData) : List ScopeRef × CxxrtlData × List CxxrtlCommand :=
  let r := scopes d
  (match r.1 with
   | some s => s
   | none => [], r.2.1, r.2.2)

/-- Embeds `CxxrtlContainer::root_modules`: the single root scope (empty
path) whenever `scopes` returns a value. -/
def root_modules (d : CxxrtlData) : List ScopeRef × CxxrtlData × List CxxrtlCommand :=
  let r := scopes d
  (if (r.1).isSome then [([] : ScopeRef)] else [], r.2.1, r.2.2)

/-- Embeds `CxxrtlContainer::module_exists`. -/
def module_exists (d : CxxrtlData) (module : ScopeRef) :
    Bool × CxxrtlData × List CxxrtlCommand :=
  let r := scopes d
  (match r.1 with
   | some s => decide (module ∈ s)
   | none => false, r.2.1, r.2.2)

/-- Embeds `CxxrtlContainer::child_scopes`: keep the cached scopes whose
path is one segment longer than the parent's and whose prefix of the
parent's length equals the parent's own prefix of that length. -/
def child_scopes (d : CxxrtlData) (parent : ScopeRef) :
    List ScopeRef × CxxrtlData × List CxxrtlCommand :=
  let r := scopes d
  (match r.1 with
   | some sc =>
      sc.filterMap (fun scope =>
        if scope.length = parent.length + 1 then
          if scope.take parent.length = parent.take parent.length then
            some scope
          else
            none
        else
          none)
   | none => [], r.2.1, r.2.2)

/-- Embeds `CxxrtlContainer::fetch_all_items`: fetch-if-needed on the
all-items cache. -/
def fetch_all_items (d : CxxrtlData) :
    Option (List (VariableRef × CxxrtlItem)) × CxxrtlData × List CxxrtlCommand :=
  let r := d.all_items_cache.fetch_if_needed
  (r.1, { d with all_items_cache := r.2.1 },
    if r.2.2 = 0 then [] else [CxxrtlCommand.list_items none])

/-- Embeds `CxxrtlContainer::raw_simulation_status`: fetch-if-needed on the
status cell, issuing a status poll on a miss. -/
def raw_simulation_status (d : CxxrtlData) :
    Option CxxrtlSimulationStatus × CxxrtlData × List CxxrtlCommand :=
  let r := d.simulation_status.fetch_if_needed
  (r.1, { d with simulation_status := r.2.1 },
    if r.2.2 = 0 then [] else [CxxrtlCommand.get_simulation_status])

/-- Embeds `CxxrtlContainer::simulation_status`. -/
def simulation_status (d : CxxrtlData) :
    Option SimulationStatus × CxxrtlData × List CxxrtlCommand :=
  let r := raw_simulation_status d
  ((r.1).map (fun s =>
    match s.status with
    | .running => SimulationStatus.Running
    | .paused => SimulationStatus.Paused
    | .finished => SimulationStatus.Finished), r.2.1, r.2.2)

/-- Embeds `CxxrtlContainer::max_timestamp`. -/
def max_timestamp (d : CxxrtlData) : Option Nat × CxxrtlData × List CxxrtlCommand :=
  let r := raw_simulation_status d
  ((r.1).map (fun s => s.latest_time), r.2.1, r.2.2)

/-- Embeds `CxxrtlContainer::query_variable`: early-return with no value
when the maximum timestamp or the item table is unavailable; otherwise
fetch-if-needed the interval query and, when the query-result cell has a
value, delegate to the interval query cache (defaulting on a pending
fetch). -/
def query_variable (d : CxxrtlData) (variable0 : VariableRef) (time : Nat) :
    Option QueryResult × CxxrtlData × List CxxrtlCommand :=
  match max_timestamp d with
  | (none, d1, cs1) => (none, d1, cs1)
  | (some max_ts, d1, cs1) =>
    match fetch_all_items d1 with
    | (none, d2, cs2) => (none, d2, cs1 ++ cs2)
    | (some _info, d2, cs2) =>
      let r := d2.query_result.fetch_if_needed
      let d3 := { d2 with query_result := r.2.1 }
      let cs3 :=
        if r.2.2 = 0 then []
        else
          [CxxrtlCommand.query_interval 0 max_ts true (some DEFAULT_REFERENCE)
            "base64(u32)" false]
      let res :=
        match r.1 with
        | some _ => d3.interval_query_cache.query variable0 (Int.ofNat time)
        | none => (default : QueryResult)
      (some res, d3, cs1 ++ cs2 ++ cs3)

/-- One step of the loop in `CxxrtlContainer::load_variables`: a variable
not yet in the signal index map is appended and assigned the next free
position. -/
def load_variable_step (d : CxxrtlData) (varref : VariableRef) : CxxrtlData :=
  if (alistLookup d.signal_index_map varref).isSome then d
  else
    { d with
      signal_index_map := (varref, d.loaded_signals.length) :: d.signal_index_map
      loaded_signals := d.loaded_signals ++ [varref] }

/-- Embeds `CxxrtlContainer::load_variables`: register each variable, then
re-send the full reference-items command for the loaded signals. -/
def load_variables (d : CxxrtlData) (vars : List VariableRef) :
    CxxrtlData × List CxxrtlCommand :=
  let d1 := vars.foldl load_variable_step d
  (d1,
    [CxxrtlCommand.reference_items DEFAULT_REFERENCE
      (d1.loaded_signals.map (fun s => [s.cxxrtl_repr]))])

/-- Embeds `CxxrtlContainer::unpause`: run until the latest simulated time
plus the 100_000_000 fs quantum (the quantum alone when the status is
unknown). -/
def unpause (d : CxxrtlData) : CxxrtlData × List CxxrtlCommand :=
  let r := raw_simulation_status d
  let duration :=
    match r.1 with
    | some s => s.latest_time + 100000000
    | none => 100000000
  (r.2.1,
    r.2.2 ++ [CxxrtlCommand.run_simulation (some duration) [] true])

/-- Embeds `CxxrtlContainer::pause`: queue a pause command (the state
changes only when `pause_callback` later runs). -/
def pause (d : CxxrtlData) : CxxrtlData × List CxxrtlCommand :=
  (d, [CxxrtlCommand.pause_simulation])

end CxxrtlContainer

/-! ## Claim theorems -/

/-- C1: from `Uncached`, `fetch_if_needed` invokes the issue closure exactly
once, moves to `Waiting` preserving `prev`, and returns the previous value;
from `Waiting` or `Filled` it does not invoke the closure, leaves the state
unchanged, and returns the best available value; hence two consecutive
calls starting from `Waiting` issue zero requests and starting from
`Uncached` exactly one. -/
theorem fetch_if_needed_issue_discipline {T : Type} (prev : Option T) (v : T) :
    CachedData.fetch_if_needed (CachedData.Uncached prev) =
      (prev, CachedData.Waiting prev, 1) ∧
    CachedData.fetch_if_needed (CachedData.Waiting prev) =
      (prev, CachedData.Waiting prev, 0) ∧
    CachedData.fetch_if_needed (CachedData.Filled v) =
      (some v, CachedData.Filled v, 0) ∧
    (CachedData.Waiting prev : CachedData T).fetch_if_needed.2.2 +
      ((CachedData.Waiting prev : CachedData T).fetch_if_needed.2.1).fetch_if_needed.2.2
      = 0 ∧
    (CachedData.Uncached prev : CachedData T).fetch_if_needed.2.2 +
      ((CachedData.Uncached prev : CachedData T).fetch_if_needed.2.1).fetch_if_needed.2.2
      = 1 :=
  ⟨rfl, rfl, rfl, rfl, rfl⟩

/-- C2: `make_uncached` always yields an `Uncached` cell whose `prev` is
exactly what `get` returned on the old cell, so `get` is preserved by
invalidation. -/
theorem make_uncached_preserves_get {T : Type} (c : CachedData T) :
    c.make_uncached = CachedData.Uncached c.get ∧ c.make_uncached.get = c.get := by
  cases c <;> exact ⟨rfl, rfl⟩

/-- C7: decoding an item table splits every key on the space separator,
taking all tokens but the last as the scope path and the last as the leaf
name, preserving the width; in particular the keys "top cpu r0" (width 16)
and "top mem data" (width 32) decode to `top.cpu.r0` and `top.mem.data`
with those widths. -/
theorem item_list_decodes_keys :
    (∀ items, item_list_to_hash_map items =
      items.map (fun kv => (decode_item_key kv.1, kv.2))) ∧
    item_list_to_hash_map [("top cpu r0", ⟨16⟩), ("top mem data", ⟨32⟩)] =
      [(⟨["top", "cpu"], "r0"⟩, ⟨16⟩), (⟨["top", "mem"], "data"⟩, ⟨32⟩)] :=
  ⟨item_list_to_hash_map_eq_map, by decide⟩

/-- C9 counterexample: the item whose key is the empty string — a key from
which no scope/name pair can be separated — is NOT dropped: it decodes to a
variable with empty scope path and empty name and stays in the table. -/
theorem empty_key_item_not_dropped :
    item_list_to_hash_map [("", ⟨8⟩)] = [(⟨[], ""⟩, ⟨8⟩)] ∧
    (item_list_to_hash_map [("", ⟨8⟩)]).length = 1 := by
  decide

/-- C9 amended: no item of the batch is ever dropped — splitting a key on
the separator always yields at least one token, so the malformed-key guard
(the `error!` arm) is unreachable and every item of the batch is decoded
and present in the result; a key with no separator decodes to an empty
scope path (the empty key to an empty name as well). -/
theorem item_list_drops_nothing :
    (∀ items, (item_list_to_hash_map items).length = items.length) ∧
    decode_item_key "" = ⟨[], ""⟩ :=
  ⟨fun items => by rw [item_list_to_hash_map_eq_map]; exact List.length_map items _,
   by decide⟩

/-- A concrete state whose scope cache is filled with the scenario table
{"top", "top cpu"}. -/
def scenario_scope_data : CxxrtlData :=
  { CxxrtlData.initial with
    scopes_cache := CachedData.Filled [["top"], ["top", "cpu"]] }

/-- C6: with a filled scope cache, `child_scopes(P)` returns exactly the
cached scopes whose path is one segment longer than `P` and whose prefix of
`P`'s length is `P`; with cached scopes {"top", "top cpu"},
`child_scopes(["top"])` is exactly `[["top","cpu"]]`. -/
theorem child_scopes_characterisation (d : CxxrtlData) (tbl : List ScopeRef)
    (parent C : ScopeRef) (h : d.scopes_cache = CachedData.Filled tbl) :
    (C ∈ (CxxrtlContainer.child_scopes d parent).1 ↔
      C ∈ tbl ∧ C.length = parent.length + 1 ∧ C.take parent.length = parent) ∧
    (CxxrtlContainer.child_scopes scenario_scope_data ["top"]).1 = [["top", "cpu"]] := by
  constructor
  · have key : (CxxrtlContainer.child_scopes d parent).1 =
        tbl.filterMap (fun scope =>
          if scope.length = parent.length + 1 then
            if scope.take parent.length = parent.take parent.length then
              some scope
            else
              none
          else
            none) := by
      simp [CxxrtlContainer.child_scopes, CxxrtlContainer.scopes,
        CxxrtlContainer.get_scopes, h, CachedData.fetch_if_needed]
    rw [key, List.mem_filterMap]
    constructor
    · rintro ⟨a, ha, hf⟩
      by_cases h1 : a.length = parent.length + 1
      · by_cases h2 : a.take parent.length = parent.take parent.length
        · rw [if_pos h1, if_pos h2] at hf
          cases hf
          exact ⟨ha, h1, by rw [h2, List.take_length]⟩
        · rw [if_pos h1, if_neg h2] at hf
          cases hf
      · rw [if_neg h1] at hf
        cases hf
    · rintro ⟨ha, h1, h2⟩
      exact ⟨C, ha, by rw [if_pos h1, if_pos (by rw [h2, List.take_length])]⟩
  · decide

/-- C6 witness: the characterisation instantiated on the scenario state. -/
theorem child_scopes_characterisation_witness :
    ((["top", "cpu"] : ScopeRef) ∈
        (CxxrtlContainer.child_scopes scenario_scope_data ["top"]).1 ↔
      (["top", "cpu"] : ScopeRef) ∈ [(["top"] : ScopeRef), ["top", "cpu"]] ∧
        (["top", "cpu"] : List String).length = (["top"] : List String).length + 1 ∧
        (["top", "cpu"] : List String).take (["top"] : List String).length = ["top"]) ∧
    (CxxrtlContainer.child_scopes scenario_scope_data ["top"]).1 = [["top", "cpu"]] :=
  child_scopes_characterisation scenario_scope_data [["top"], ["top", "cpu"]]
    ["top"] ["top", "cpu"] rfl

/-- C10: the scope-reading facade never reports absence: `get_scopes`
substitutes the empty table when the cache has no value, `scopes` is always
`some`, `modules` always returns the (possibly empty) key list,
`root_modules` always returns exactly the single root scope with the empty
path, and `module_exists` on an unfetched scope list is `false`. -/
theorem scope_facade_totality (d : CxxrtlData) (m : ScopeRef) :
    (d.scopes_cache.fetch_if_needed.1 = none →
      (CxxrtlContainer.get_scopes d).1 = []) ∧
    (CxxrtlContainer.scopes d).1.isSome = true ∧
    (CxxrtlContainer.modules d).1 = (CxxrtlContainer.get_scopes d).1 ∧
    (CxxrtlContainer.root_modules d).1 = [([] : ScopeRef)] ∧
    (CxxrtlContainer.module_exists d m).1 =
      decide (m ∈ (CxxrtlContainer.get_scopes d).1) ∧
    (d.scopes_cache = CachedData.Uncached none →
      (CxxrtlContainer.module_exists d m).1 = false) := by
  refine ⟨fun h => ?_, rfl, rfl, rfl, rfl, fun h => ?_⟩
  · simp [CxxrtlContainer.get_scopes, h]
  · simp [CxxrtlContainer.module_exists, CxxrtlContainer.scopes,
      CxxrtlContainer.get_scopes, h, CachedData.fetch_if_needed]

/-- C10 witness: on the freshly connected state (scope cache empty and
unfetched), `get_scopes` yields the empty table, `module_exists` is false,
and `root_modules` is exactly the root scope. -/
theorem scope_facade_totality_witness :
    (CxxrtlContainer.get_scopes CxxrtlData.initial).1 = [] ∧
    (CxxrtlContainer.root_modules CxxrtlData.initial).1 = [([] : ScopeRef)] ∧
    (CxxrtlContainer.module_exists CxxrtlData.initial ["top"]).1 = false :=
  ⟨(scope_facade_totality CxxrtlData.initial ["top"]).1 rfl,
   (scope_facade_totality CxxrtlData.initial ["top"]).2.2.2.1,
   (scope_facade_totality CxxrtlData.initial ["top"]).2.2.2.2.2 rfl⟩

/-- A concrete state where the maximum timestamp and the full item table
are both resolved but the loaded-signal table is empty. -/
def resolved_empty_load_data : CxxrtlData :=
  { CxxrtlData.initial with
    simulation_status := CachedData.Filled ⟨SimulationStatusType.paused, 10⟩
    all_items_cache := CachedData.Filled [(⟨["top"], "x"⟩, ⟨8⟩)] }

/-- C3 counterexample: with the maximum timestamp and the item table
resolved but the loaded-signal table empty, `query_variable` still returns
a result (the default query result), not `None`. -/
theorem query_variable_empty_load_set_answers :
    resolved_empty_load_data.loaded_signals = [] ∧
    (CxxrtlContainer.query_variable resolved_empty_load_data ⟨["top"], "x"⟩ 5).1 =
      some (default : QueryResult) := by
  decide

/-- C3 amended: `query_variable` returns no result exactly when the maximum
timestamp is unknown or the full item table is unknown; the loaded-signal
table is never consulted for emptiness, so an empty load set still yields
`some` (a default/empty query result). -/
theorem query_variable_none_iff (d : CxxrtlData) (variable0 : VariableRef)
    (time : Nat) :
    (CxxrtlContainer.query_variable d variable0 time).1 = none ↔
      (d.simulation_status.fetch_if_needed.1 = none ∨
       d.all_items_cache.fetch_if_needed.1 = none) := by
  obtain ⟨sc, mic, aic, qr, iqc, ls, sim, st, msgs⟩ := d
  rcases st with (_ | sx) | (_ | sx) | sv <;>
    rcases aic with (_ | ax) | (_ | ax) | av <;>
    simp [CxxrtlContainer.query_variable, CxxrtlContainer.max_timestamp,
      CxxrtlContainer.raw_simulation_status, CxxrtlContainer.fetch_all_items,
      CachedData.fetch_if_needed]

/-- Effect of an authoritative status update on the shared state: the
status cell is filled, the query result is demoted to `Uncached` keeping
its best value, and two redraw notifications go out (one from the update,
one from the invalidation). -/
theorem on_simulation_status_update_spec (d : CxxrtlData) (s : CxxrtlSimulationStatus) :
    (d.on_simulation_status_update s).query_result =
      CachedData.Uncached d.query_result.get ∧
    (d.on_simulation_status_update s).msgs =
      d.msgs ++ [Message.InvalidateDrawCommands, Message.InvalidateDrawCommands] ∧
    (d.on_simulation_status_update s).simulation_status = CachedData.filled s := by
  refine ⟨?_, ?_, rfl⟩
  · show (d.query_result).make_uncached = _
    cases d.query_result <;> rfl
  · simp [CxxrtlData.on_simulation_status_update, CxxrtlData.invalidate_query_result]

/-- A concrete state with a filled query-result cell and no messages sent. -/
def filled_query_data : CxxrtlData :=
  { CxxrtlData.initial with query_result := CachedData.Filled 5 }

/-- C4 counterexample: the callback applied on the run/unpause response
neither moves the query-result cache to `Uncached` (it stays `Filled 5`)
nor sends any message. -/
theorem unpause_callback_no_invalidate :
    (CxxrtlContainer.unpause_callback CommandResponse.run_simulation
        filled_query_data).query_result = CachedData.Filled 5 ∧
    (CxxrtlContainer.unpause_callback CommandResponse.run_simulation
        filled_query_data).msgs = [] := by
  decide

/-- C4 amended: the status-poll and pause response callbacks move the
query-result cache to `Uncached` and send redraw notifications, but the
run/unpause response callback only fills the status cell with
running-at-zero, leaving the query-result cache and the message channel
untouched. -/
theorem status_updates_invalidate (d : CxxrtlData) (status : CxxrtlSimulationStatus)
    (T : Nat) (r : CommandResponse) :
    ((CxxrtlContainer.status_callback
          (CommandResponse.get_simulation_status status) d).query_result =
        CachedData.Uncached d.query_result.get ∧
      (CxxrtlContainer.status_callback
          (CommandResponse.get_simulation_status status) d).msgs =
        d.msgs ++ [Message.InvalidateDrawCommands, Message.InvalidateDrawCommands]) ∧
    ((CxxrtlContainer.pause_callback
          (CommandResponse.pause_simulation T) d).query_result =
        CachedData.Uncached d.query_result.get ∧
      (CxxrtlContainer.pause_callback (CommandResponse.pause_simulation T) d).msgs =
        d.msgs ++ [Message.InvalidateDrawCommands, Message.InvalidateDrawCommands]) ∧
    ((CxxrtlContainer.unpause_callback r d).query_result = d.query_result ∧
      (CxxrtlContainer.unpause_callback r d).msgs = d.msgs ∧
      (CxxrtlContainer.unpause_callback r d).simulation_status =
        CachedData.filled ⟨SimulationStatusType.running, 0⟩) :=
  ⟨⟨(on_simulation_status_update_spec d status).1,
    (on_simulation_status_update_spec d status).2.1⟩,
   ⟨(on_simulation_status_update_spec d ⟨SimulationStatusType.paused, T⟩).1,
    (on_simulation_status_update_spec d ⟨SimulationStatusType.paused, T⟩).2.1⟩,
   rfl, rfl, rfl⟩

/-- C5: `unpause` issues a run command until the latest simulated time plus
the 100_000_000 fs quantum (the quantum alone when the status is unknown);
the run-response callback optimistically records running-at-time-zero,
which the next authoritative status poll overwrites; and after a pause
response reporting time `T`, `unpause` issues a run-until command for
`T + quantum`. -/
theorem unpause_run_quantum (d : CxxrtlData) (s : CxxrtlSimulationStatus)
    (T : Nat) (r : CommandResponse) :
    ((CxxrtlContainer.raw_simulation_status d).1 = some s →
      (CxxrtlContainer.unpause d).2 =
        (CxxrtlContainer.raw_simulation_status d).2.2 ++
          [CxxrtlCommand.run_simulation (some (s.latest_time + 100000000)) [] true]) ∧
    ((CxxrtlContainer.raw_simulation_status d).1 = none →
      (CxxrtlContainer.unpause d).2 =
        (CxxrtlContainer.raw_simulation_status d).2.2 ++
          [CxxrtlCommand.run_simulation (some 100000000) [] true]) ∧
    (CxxrtlContainer.unpause_callback r d).simulation_status =
      CachedData.filled ⟨SimulationStatusType.running, 0⟩ ∧
    (CxxrtlContainer.status_callback (CommandResponse.get_simulation_status s)
        (CxxrtlContainer.unpause_callback r d)).simulation_status =
      CachedData.filled s ∧
    (CxxrtlContainer.unpause
        (CxxrtlContainer.pause_callback (CommandResponse.pause_simulation T) d)).2 =
      [CxxrtlCommand.run_simulation (some (T + 100000000)) [] true] := by
  refine ⟨fun h => ?_, fun h => ?_, rfl, rfl, ?_⟩
  · simp only [CxxrtlContainer.unpause]
    rw [h]
  · simp only [CxxrtlContainer.unpause]
    rw [h]
  · simp [CxxrtlContainer.unpause, CxxrtlContainer.raw_simulation_status,
      CxxrtlContainer.pause_callback, CxxrtlData.on_simulation_status_update,
      CxxrtlData.invalidate_query_result, CachedData.fetch_if_needed,
      CachedData.filled]

/-- A concrete state whose status cell is filled as paused at 7 fs. -/
def paused_at_seven_data : CxxrtlData :=
  { CxxrtlData.initial with
    simulation_status := CachedData.Filled ⟨SimulationStatusType.paused, 7⟩ }

/-- C5 witness: concrete run-until commands for a filled status at 7 fs and
for the pause-then-unpause scenario at 42 fs. -/
theorem unpause_run_quantum_witness :
    (CxxrtlContainer.unpause paused_at_seven_data).2 =
      [CxxrtlCommand.run_simulation (some (7 + 100000000)) [] true] ∧
    (CxxrtlContainer.unpause
        (CxxrtlContainer.pause_callback (CommandResponse.pause_simulation 42)
          CxxrtlData.initial)).2 =
      [CxxrtlCommand.run_simulation (some (42 + 100000000)) [] true] := by
  constructor
  · have h := (unpause_run_quantum paused_at_seven_data
      ⟨SimulationStatusType.paused, 7⟩ 0 CommandResponse.run_simulation).1 rfl
    simpa [CxxrtlContainer.raw_simulation_status, CachedData.fetch_if_needed] using h
  · exact (unpause_run_quantum CxxrtlData.initial ⟨SimulationStatusType.paused, 7⟩
      42 CommandResponse.run_simulation).2.2.2.2

/-! ## The loaded-signal table (C8) -/

/-- The loaded-signal table invariant: position `i` of `loaded_signals`
maps back to `i` through `signal_index_map`. -/
def SignalTableWF (d : CxxrtlData) : Prop :=
  ∀ i (h : i < d.loaded_signals.length),
    alistLookup d.signal_index_map d.loaded_signals[i] = some i

theorem alistLookup_cons {α β : Type} [DecidableEq α] (k : α) (v : β)
    (m : List (α × β)) (w : α) :
    alistLookup ((k, v) :: m) w = if k = w then some v else alistLookup m w := rfl

theorem SignalTableWF_initial : SignalTableWF CxxrtlData.initial :=
  fun _ h => absurd h (by simp [CxxrtlData.initial])

theorem load_variable_step_of_mem (d : CxxrtlData) (v : VariableRef)
    (h : (alistLookup d.signal_index_map v).isSome) :
    CxxrtlContainer.load_variable_step d v = d := by
  simp [CxxrtlContainer.load_variable_step, h]

theorem load_variable_step_fresh (d : CxxrtlData) (v : VariableRef)
    (h : alistLookup d.signal_index_map v = none) :
    CxxrtlContainer.load_variable_step d v =
      { d with
        signal_index_map := (v, d.loaded_signals.length) :: d.signal_index_map
        loaded_signals := d.loaded_signals ++ [v] } := by
  simp [CxxrtlContainer.load_variable_step, h]

theorem load_variable_step_stable (d : CxxrtlData) (v w : VariableRef) (n : Nat)
    (h : alistLookup d.signal_index_map w = some n) :
    alistLookup (CxxrtlContainer.load_variable_step d v).signal_index_map w = some n := by
  by_cases hv : (alistLookup d.signal_index_map v).isSome
  · rw [load_variable_step_of_mem d v hv]
    exact h
  · rw [Option.not_isSome_iff_eq_none] at hv
    rw [load_variable_step_fresh d v hv]
    have hne : v ≠ w := by
      intro he
      rw [he, h] at hv
      cases hv
    simpa [alistLookup_cons, if_neg hne] using h

theorem load_variable_step_grows (d : CxxrtlData) (v : VariableRef) :
    d.loaded_signals <+: (CxxrtlContainer.load_variable_step d v).loaded_signals := by
  by_cases hv : (alistLookup d.signal_index_map v).isSome
  · rw [load_variable_step_of_mem d v hv]
  · rw [Option.not_isSome_iff_eq_none] at hv
    rw [load_variable_step_fresh d v hv]
    exact ⟨[v], rfl⟩

theorem load_variable_step_WF (d : CxxrtlData) (v : VariableRef)
    (h : SignalTableWF d) :
    SignalTableWF (CxxrtlContainer.load_variable_step d v) := by
  by_cases hv : (alistLookup d.signal_index_map v).isSome
  · rw [load_variable_step_of_mem d v hv]
    exact h
  · rw [Option.not_isSome_iff_eq_none] at hv
    rw [load_variable_step_fresh d v hv]
    intro i hi
    simp only [List.length_append, List.length_cons, List.length_nil] at hi
    by_cases hlt : i < d.loaded_signals.length
    · have hw := h i hlt
      have hne : v ≠ d.loaded_signals[i] := by
        intro he
        rw [← he, hv] at hw
        cases hw
      rw [List.getElem_append_left hlt, alistLookup_cons, if_neg hne]
      exact hw
    · have hieq : i = d.loaded_signals.length := by omega
      subst hieq
      rw [List.getElem_concat_length, alistLookup_cons, if_pos rfl]
      rfl

theorem fold_load_stable (vs : List VariableRef) (d : CxxrtlData)
    (w : VariableRef) (n : Nat) (h : alistLookup d.signal_index_map w = some n) :
    alistLookup
      (vs.foldl CxxrtlContainer.load_variable_step d).signal_index_map w = some n := by
  induction vs generalizing d with
  | nil => exact h
  | cons v rest ih => exact ih _ (load_variable_step_stable d v w n h)

theorem fold_load_WF (vs : List VariableRef) (d : CxxrtlData) (h : SignalTableWF d) :
    SignalTableWF (vs.foldl CxxrtlContainer.load_variable_step d) := by
  induction vs generalizing d with
  | nil => exact h
  | cons v rest ih => exact ih _ (load_variable_step_WF d v h)

theorem fold_load_grows (vs : List VariableRef) (d : CxxrtlData) :
    d.loaded_signals <+:
      (vs.foldl CxxrtlContainer.load_variable_step d).loaded_signals := by
  induction vs generalizing d with
  | nil => exact List.prefix_rfl
  | cons v rest ih => exact (load_variable_step_grows d v).trans (ih _)

theorem fold_load_all_present (vs : List VariableRef) (d : CxxrtlData)
    (h : ∀ v ∈ vs, (alistLookup d.signal_index_map v).isSome) :
    vs.foldl CxxrtlContainer.load_variable_step d = d := by
  induction vs with
  | nil => rfl
  | cons v rest ih =>
    rw [List.foldl_cons, load_variable_step_of_mem d v (h v (List.mem_cons_self _ _))]
    exact ih (fun u hu => h u (List.mem_cons_of_mem _ hu))

theorem fold_load_fresh (vs : List VariableRef) (d : CxxrtlData)
    (hnd : vs.Nodup) (hf : ∀ v ∈ vs, alistLookup d.signal_index_map v = none) :
    (vs.foldl CxxrtlContainer.load_variable_step d).loaded_signals =
      d.loaded_signals ++ vs ∧
    ∀ i (h : i < vs.length),
      alistLookup
          (vs.foldl CxxrtlContainer.load_variable_step d).signal_index_map vs[i] =
        some (d.loaded_signals.length + i) := by
  induction vs generalizing d with
  | nil => exact ⟨by simp, fun i h => absurd h (by simp)⟩
  | cons v rest ih =>
    have hv := hf v (List.mem_cons_self _ _)
    have hstep := load_variable_step_fresh d v hv
    have hnd' := List.nodup_cons.mp hnd
    have hfr : ∀ u ∈ rest,
        alistLookup (CxxrtlContainer.load_variable_step d v).signal_index_map u = none := by
      intro u hu
      have hne : v ≠ u := fun he => hnd'.1 (he ▸ hu)
      rw [hstep]
      simpa [alistLookup_cons, if_neg hne] using hf u (List.mem_cons_of_mem _ hu)
    obtain ⟨hl, hp⟩ := ih (CxxrtlContainer.load_variable_step d v) hnd'.2 hfr
    have hlen : (CxxrtlContainer.load_variable_step d v).loaded_signals =
        d.loaded_signals ++ [v] := by rw [hstep]
    refine ⟨?_, ?_⟩
    · rw [List.foldl_cons, hl, hlen, List.append_assoc, List.singleton_append]
    · intro i hi
      rw [List.foldl_cons]
      cases i with
      | zero =>
        have h0 : alistLookup
            (CxxrtlContainer.load_variable_step d v).signal_index_map v =
            some d.loaded_signals.length := by
          rw [hstep]
          simp [alistLookup_cons]
        have hs := fold_load_stable rest _ v d.loaded_signals.length h0
        simpa using hs
      | succ j =>
        have hj : j < rest.length := by simpa using hi
        have hlen2 : (CxxrtlContainer.load_variable_step d v).loaded_signals.length =
            d.loaded_signals.length + 1 := by
          rw [hlen]
          simp
        have hpj := hp j hj
        rw [hlen2] at hpj
        rw [List.getElem_cons_succ]
        exact hpj.trans (congrArg some (by omega))

/-- C8: loaded-signal positions are stable and unique — the invariant
`signal_index_map[loaded_signals[i]] = i` is preserved by every
`load_variables` call, an already-assigned position never changes, loading
only already-present variables changes nothing, `loaded_signals` only ever
grows, and loading distinct fresh variables appends them and assigns
consecutive positions equal to insertion order. -/
theorem load_variables_positions_stable (d : CxxrtlData) (vs : List VariableRef)
    (w : VariableRef) (n : Nat) :
    (SignalTableWF d → SignalTableWF (CxxrtlContainer.load_variables d vs).1) ∧
    (alistLookup d.signal_index_map w = some n →
      alistLookup (CxxrtlContainer.load_variables d vs).1.signal_index_map w = some n) ∧
    ((∀ v ∈ vs, (alistLookup d.signal_index_map v).isSome) →
      (CxxrtlContainer.load_variables d vs).1 = d) ∧
    d.loaded_signals <+: (CxxrtlContainer.load_variables d vs).1.loaded_signals ∧
    (vs.Nodup → (∀ v ∈ vs, alistLookup d.signal_index_map v = none) →
      (CxxrtlContainer.load_variables d vs).1.loaded_signals =
        d.loaded_signals ++ vs ∧
      ∀ i (h : i < vs.length),
        alistLookup (CxxrtlContainer.load_variables d vs).1.signal_index_map vs[i] =
          some (d.loaded_signals.length + i)) :=
  ⟨fun h => fold_load_WF vs d h,
   fun h => fold_load_stable vs d w n h,
   fun h => fold_load_all_present vs d h,
   fold_load_grows vs d,
   fun hnd hf => fold_load_fresh vs d hnd hf⟩

def sig_a : VariableRef := ⟨["top"], "a"⟩

def sig_b : VariableRef := ⟨["top"], "b"⟩

/-- C8 witness: loading two distinct fresh variables from the initial state
assigns positions 0 and 1 in insertion order, preserves the invariant, and
re-loading an already-present variable changes nothing. -/
theorem load_variables_positions_stable_witness :
    SignalTableWF (CxxrtlContainer.load_variables CxxrtlData.initial [sig_a, sig_b]).1 ∧
    (CxxrtlContainer.load_variables
        CxxrtlData.initial [sig_a, sig_b]).1.loaded_signals = [sig_a, sig_b] ∧
    alistLookup (CxxrtlContainer.load_variables
        CxxrtlData.initial [sig_a, sig_b]).1.signal_index_map sig_a = some 0 ∧
    alistLookup (CxxrtlContainer.load_variables
        CxxrtlData.initial [sig_a, sig_b]).1.signal_index_map sig_b = some 1 ∧
    (CxxrtlContainer.load_variables
        (CxxrtlContainer.load_variables CxxrtlData.initial [sig_a, sig_b]).1
        [sig_a]).1 =
      (CxxrtlContainer.load_variables CxxrtlData.initial [sig_a, sig_b]).1 := by
  refine ⟨?_, ?_, ?_, ?_, ?_⟩
  · exact (load_variables_positions_stable CxxrtlData.initial [sig_a, sig_b]
      sig_a 0).1 SignalTableWF_initial
  · have h := ((load_variables_positions_stable CxxrtlData.initial [sig_a, sig_b]
      sig_a 0).2.2.2.2 (by decide) (by decide)).1
    simpa [CxxrtlData.initial] using h
  · have h := ((load_variables_positions_stable CxxrtlData.initial [sig_a, sig_b]
      sig_a 0).2.2.2.2 (by decide) (by decide)).2 0 (by decide)
    simpa [CxxrtlData.initial] using h
  · have h := ((load_variables_positions_stable CxxrtlData.initial [sig_a, sig_b]
      sig_a 0).2.2.2.2 (by decide) (by decide)).2 1 (by decide)
    simpa [CxxrtlData.initial] using h
  · exact (load_variables_positions_stable
      (CxxrtlContainer.load_variables CxxrtlData.initial [sig_a, sig_b]).1
      [sig_a] sig_a 0).2.2.1 (by decide)

end Surfer
